import Mathlib

/-!
Verification of luna-usb-serial-acm: a LiteX/migen wrapper exposing a
LUNA-generated USB CDC-ACM serial device.  The development shallowly embeds
the two wrapper constructors (src/USBSerialDevice.py, the legacy file, and
src/src/luna_usb_serial_acm/USBSerialDevice.py, the packaged file) together
with the build script src/src/luna_usb_serial_acm/build_verilog.py, and
proves the specified properties about variant selection, configuration
resolution, stream wiring, clock-domain parameters and reset polarity.
-/

namespace LunaUsbSerialAcm

/-! ## Data model -/

/-- The three clock domains named by the constructors: the application
stream domain (default "sys"), the USB core domain (default "usb") and the
USB IO domain (default "usb_io").  The constructors receive them as three
separate identifier arguments. -/
inductive Domain
| app
| core
| usbio
deriving DecidableEq, Repr

/-- The two PHY attachment variants. -/
inductive Variant
| Direct
| ULPI
deriving DecidableEq, Repr

/-- Device identity fields: USBSerialDevice.py lines 20-23
(id_vendor, id_product, manufacturer_string, product_string). -/
structure Identity where
  idVendor : Nat
  idProduct : Nat
  manufacturerString : String
  productString : String
deriving DecidableEq, Repr

/-- Which attributes the caller-supplied usb_pads object carries.  The
constructor only ever inspects these by name (hasattr / attribute access),
so a pin set is embedded as the set of attribute names present. -/
structure PinSet where
  d_p : Bool
  d_n : Bool
  pullup : Bool
  data : Bool
  clk : Bool
  stp : Bool
  nxt : Bool
  dir : Bool
  rst : Bool
deriving DecidableEq, Repr

/-- The pin attributes the Direct variant wires
(USBSerialDevice.py lines 90, 91, 106): d_p, d_n, pullup. -/
def matchesDirect (p : PinSet) : Bool :=
  p.d_p && p.d_n && p.pullup

/-- The pin attributes the ULPI variant wires
(USBSerialDevice.py lines 113, 117, 124-127): data, clk, stp, nxt, dir, rst. -/
def matchesULPI (p : PinSet) : Bool :=
  p.data && p.clk && p.stp && p.nxt && p.dir && p.rst

/-! ## Variant selection and configuration resolution
(packaged USBSerialDevice.py lines 26-31) -/

/-- Line 27: use_ulpi_phy = hasattr(usb_pads, "clk"). -/
def use_ulpi_phy (pads : PinSet) : Bool := pads.clk

/-- The variant the heuristic selects, as a sum type. -/
def variantOf (pads : PinSet) : Variant :=
  if use_ulpi_phy pads then .ULPI else .Direct

/-- Line 31: max_packet_size = 512 if use_ulpi_phy else 64. -/
def max_packet_size (ulpi : Bool) : Nat :=
  if ulpi then 512 else 64

/-- The Device Configuration Resolver: from the chosen variant and the
caller identity, the resolved packet size (line 31) and the identity fields
forwarded untouched to the build call (lines 37-40). -/
def resolveConfig (v : Variant) (i : Identity) : Nat × Identity :=
  (max_packet_size (decide (v = .ULPI)), i)

/-! ## The build () call (packaged USBSerialDevice.py lines 34-41 against
build_verilog.py lines 16-22) -/

/-- Parameter names declared by def build (...) in build_verilog.py
lines 16-22.  The function has no var-keyword parameter. -/
def buildParamNames : List String :=
  ["idVendor", "idProduct", "manufacturer_string", "product_string", "ulpi"]

/-- Keyword-argument names used at the call site build (...) in the packaged
USBSerialDevice.py lines 34-41. -/
def buildCallKwargNames : List String :=
  ["ulpi", "max_packet_size", "idVendor", "idProduct",
   "manufacturer_string", "product_string"]

/-- The Python binding rule for a function without a var-keyword parameter:
the call raises TypeError before the body runs whenever some keyword does
not name a declared parameter. -/
def buildCallBadKwarg : Bool :=
  buildCallKwargNames.any (fun k => !(buildParamNames.contains k))

/-- Arguments that reach the body of build when the call binds. -/
structure BuildArgs where
  ulpi : Bool
  ident : Identity
deriving DecidableEq, Repr

/-- What build hands to the black-box engine LunaDeviceACM
(build_verilog.py lines 32-38): a bus record chosen by the ulpi flag and
the four identity fields, nothing else (in particular no packet size). -/
structure EngineConfig where
  busIsUlpi : Bool
  idVendor : Nat
  idProduct : Nat
  manufacturerString : String
  productString : String
deriving DecidableEq, Repr

/-- Body of build: pick the bus record (line 113), instantiate the engine
with the identity fields unchanged (lines 32-38), pick the generated module
name (line 114). -/
def buildBody (a : BuildArgs) : EngineConfig × String :=
  ({ busIsUlpi := a.ulpi
     idVendor := a.ident.idVendor
     idProduct := a.ident.idProduct
     manufacturerString := a.ident.manufacturerString
     productString := a.ident.productString },
   if a.ulpi then "LunaUSBSerialDevice_ULPI" else "LunaUSBSerialDevice_RAW")

/-! ## Stream endpoints and the litex connect statement -/

/-- The six stream endpoints the two wrappers name: the application-facing
pair (lines 47-48 packaged, 20-21 legacy) and the sink/source endpoints of
the two ClockDomainCrossing instances (lines 51-52 packaged, 24-25 legacy). -/
inductive Ep
| usb_tx
| usb_rx
| tx_cdc_sink
| tx_cdc_source
| rx_cdc_sink
| rx_cdc_source
deriving DecidableEq, Repr

/-- The five stream fields of a litex Endpoint layout. -/
inductive SField
| valid
| ready
| first
| last
| payload
deriving DecidableEq, Repr

/-- One comb statement dst.eq(src), identifying driver (src) and load (dst). -/
structure Assign where
  dstEp : Ep
  dstF : SField
  srcEp : Ep
  srcF : SField
deriving DecidableEq, Repr

/-- The forward-directed fields of a litex stream endpoint layout
(DIR_M_TO_S in EndpointDescription.get_full_layout): valid, first, last and
the payload; ready is the one DIR_S_TO_M field. -/
def m2sFields : List SField := [.valid, .first, .last, .payload]

/-- migen Record.connect as applied to litex stream endpoints:
a.connect(b) drives every forward field of b from a and drives a.ready
from b.ready; a is the producer, b the consumer. -/
def connectEp (a b : Ep) : List Assign :=
  (m2sFields.map fun f => ⟨b, f, a, f⟩) ++ [⟨a, .ready, b, .ready⟩]

/-- Swap driver and load of an assignment. -/
def swapAssign (x : Assign) : Assign :=
  ⟨x.srcEp, x.srcF, x.dstEp, x.dstF⟩

/-- Stream comb statements of the packaged wrapper, lines 55-58:
self.usb_tx.connect(tx_cdc.sink); rx_cdc.source.connect(self.usb_rx). -/
def packagedStreamComb : List Assign :=
  connectEp .usb_tx .tx_cdc_sink ++ connectEp .rx_cdc_source .usb_rx

/-- Stream comb statements of the legacy wrapper, lines 27-30:
tx_cdc.sink.connect(self.usb_tx); self.usb_rx.connect(rx_cdc.source). -/
def legacyStreamComb : List Assign :=
  connectEp .tx_cdc_sink .usb_tx ++ connectEp .usb_rx .rx_cdc_source

/-! ## Instance parameters -/

/-- What a value bound into the params dict refers to. -/
inductive SigRef
| clockOf (d : Domain)
| resetOf (d : Domain)
| epField (e : Ep) (f : SField)
| tristateSig (s : String)
| padSig (s : String)
| localSig (s : String)
deriving DecidableEq, Repr

/-- Association-list lookup over the params dict. -/
def lookupParam (n : String) : List (String × SigRef) → Option SigRef
| [] => none
| (k, v) :: rest => if k = n then some v else lookupParam n rest

/-- Clock, reset and stream parameters common to both branches of the
packaged wrapper, lines 60-79.  The i_clk_usb and i_clk_sync inputs are
both bound to ClockSignal(usb_clockdomain); i_rst_sync to
ResetSignal(usb_clockdomain); the tx stream parameters to tx_cdc.source
fields and the rx stream parameters to rx_cdc.sink fields. -/
def packagedBaseParams : List (String × SigRef) :=
  [("i_clk_usb", .clockOf .core),
   ("i_clk_sync", .clockOf .core),
   ("i_rst_sync", .resetOf .core),
   ("o_tx__ready", .epField .tx_cdc_source .ready),
   ("i_tx__valid", .epField .tx_cdc_source .valid),
   ("i_tx__first", .epField .tx_cdc_source .first),
   ("i_tx__last", .epField .tx_cdc_source .last),
   ("i_tx__payload", .epField .tx_cdc_source .payload),
   ("i_rx__ready", .epField .rx_cdc_sink .ready),
   ("o_rx__valid", .epField .rx_cdc_sink .valid),
   ("o_rx__first", .epField .rx_cdc_sink .first),
   ("o_rx__last", .epField .rx_cdc_sink .last),
   ("o_rx__payload", .epField .rx_cdc_sink .payload)]

/-- Direct-branch parameters of the packaged wrapper, lines 95-107. -/
def packagedDirectParams : List (String × SigRef) :=
  [("i_usb_io_clk", .clockOf .usbio),
   ("i_usb_io_rst", .resetOf .usbio),
   ("o_raw_pads__d_p__o", .tristateSig "dp.o"),
   ("o_raw_pads__d_p__oe", .tristateSig "dp.oe"),
   ("i_raw_pads__d_p__i", .tristateSig "dp.i"),
   ("o_raw_pads__d_n__o", .tristateSig "dn.o"),
   ("o_raw_pads__d_n__oe", .tristateSig "dn.oe"),
   ("i_raw_pads__d_n__i", .tristateSig "dn.i"),
   ("o_raw_pads__pullup__o", .padSig "pullup")]

/-- ULPI-branch parameters of the packaged wrapper, lines 120-128.
o_ulpi_pads__rst__o is bound to the local active-high reset signal of
line 112, not to the pad. -/
def packagedUlpiParams : List (String × SigRef) :=
  [("o_ulpi_pads__data__o", .tristateSig "ulpi_data.o"),
   ("o_ulpi_pads__data__oe", .tristateSig "ulpi_data.oe"),
   ("i_ulpi_pads__data__i", .tristateSig "ulpi_data.i"),
   ("o_ulpi_pads__clk__o", .padSig "clk"),
   ("o_ulpi_pads__stp__o", .padSig "stp"),
   ("i_ulpi_pads__nxt__i", .padSig "nxt"),
   ("i_ulpi_pads__dir__i", .padSig "dir"),
   ("o_ulpi_pads__rst__o", .localSig "reset")]

/-- Instance parameters of the legacy wrapper, lines 38-68: the direct-PHY
pin set only, with i_clk_usb and i_clk_sync both bound to
ClockSignal(usb_clockdomain). -/
def legacyParams : List (String × SigRef) :=
  [("i_clk_usb", .clockOf .core),
   ("i_clk_sync", .clockOf .core),
   ("i_rst_sync", .resetOf .core),
   ("i_usb_io_clk", .clockOf .usbio),
   ("i_usb_io_rst", .resetOf .usbio),
   ("o_raw_usb__d_p__o", .tristateSig "dp.o"),
   ("o_raw_usb__d_p__oe", .tristateSig "dp.oe"),
   ("i_raw_usb__d_p__i", .tristateSig "dp.i"),
   ("o_raw_usb__d_n__o", .tristateSig "dn.o"),
   ("o_raw_usb__d_n__oe", .tristateSig "dn.oe"),
   ("i_raw_usb__d_n__i", .tristateSig "dn.i"),
   ("o_raw_usb__pullup__o", .padSig "pullup"),
   ("o_tx__ready", .epField .tx_cdc_source .ready),
   ("i_tx__valid", .epField .tx_cdc_source .valid),
   ("i_tx__first", .epField .tx_cdc_source .first),
   ("i_tx__last", .epField .tx_cdc_source .last),
   ("i_tx__payload", .epField .tx_cdc_source .payload),
   ("i_rx__ready", .epField .rx_cdc_sink .ready),
   ("o_rx__valid", .epField .rx_cdc_sink .valid),
   ("o_rx__first", .epField .rx_cdc_sink .first),
   ("o_rx__last", .epField .rx_cdc_sink .last),
   ("o_rx__payload", .epField .rx_cdc_sink .payload)]

/-! ## The constructed module bodies -/

/-- What a wrapper constructor builds: the exposed endpoints (sink and
source aliases), the two ClockDomainCrossing instances with their
from/to domains, the stream comb statements, the instance parameters,
the instantiated module name, the chosen variant and the single pad
object wired to the outside. -/
structure Device where
  variant : Variant
  sink : Ep
  source : Ep
  endpoints : List Ep
  cdcs : List (Domain × Domain)
  streamComb : List Assign
  params : List (String × SigRef)
  instName : String
  bus : PinSet
deriving DecidableEq, Repr

/-- Body of the packaged constructor after the build call, lines 43-133,
as a function of the supplied pads and identity. -/
def packagedWiring (pads : PinSet) (i : Identity) : Device :=
  let u := use_ulpi_phy pads
  { variant := if u then .ULPI else .Direct
    sink := .usb_tx
    source := .usb_rx
    endpoints := [.usb_tx, .usb_rx]
    cdcs := [(.app, .core), (.core, .app)]
    streamComb := packagedStreamComb
    params := packagedBaseParams ++
      (if u then packagedUlpiParams else packagedDirectParams)
    instName := (buildBody ⟨u, i⟩).2
    bus := pads }

/-- Body of the legacy constructor, the whole of src/USBSerialDevice.py:
always the direct-PHY wiring against the pregenerated module name. -/
def legacyWiring (pads : PinSet) : Device :=
  { variant := .Direct
    sink := .usb_tx
    source := .usb_rx
    endpoints := [.usb_tx, .usb_rx]
    cdcs := [(.app, .core), (.core, .app)]
    streamComb := legacyStreamComb
    params := legacyParams
    instName := "LunaUSBSerialDevice"
    bus := pads }

/-! ## The packaged constructor as an effectful computation -/

/-- Python-level outcomes the packaged constructor can produce. -/
inductive PyError
| typeError
| attributeError
| configError
deriving DecidableEq, Repr

/-- Externally visible construction effects, in order. -/
inductive Effect
| builtVerilog (moduleName : String)
| addSource (moduleName : String)
| instantiated (moduleName : String)
deriving DecidableEq, Repr

/-- The packaged constructor, lines 15-133, run step by step: variant
heuristic (line 27), packet-size resolution (line 31), the build call
(lines 34-41, which binds keywords against the parameter list of build
and raises TypeError on an unexpected keyword before the body runs),
then verilog generation, platform.add_source (line 44), wiring, and the
Instance statement (line 131). -/
def packagedInit (pads : PinSet) (i : Identity) :
    Except PyError Device × List Effect :=
  let u := use_ulpi_phy pads
  let _mps := max_packet_size u
  if buildCallBadKwarg then
    (.error .typeError, [])
  else
    let (_cfg, moduleName) := buildBody ⟨u, i⟩
    (.ok (packagedWiring pads i),
     [.builtVerilog moduleName, .addSource moduleName,
      .instantiated moduleName])

/-! ## CDC bridge model -/

/-- One Stream Channel transfer: a payload byte with its frame markers,
moved atomically (spec section 4.1). -/
structure Transfer where
  payload : Nat
  first : Bool
  last : Bool
deriving DecidableEq, Repr

/-- Modelled from the spec: the implementation of the CDC Bridge is the
litex stream.ClockDomainCrossing primitive instantiated at the packaged
USBSerialDevice.py lines 51-52 (legacy lines 24-25) and is not part of this
repository.  Spec section 4.2 describes it as a bounded queue whose write
side is driven purely by producer-domain signals and read side purely by
consumer-domain signals.  The state records the transfers still pending on
the producer side, the queue contents, and the transfers already observed
by the consumer. -/
structure CDCState where
  pending : List Transfer
  buffer : List Transfer
  consumed : List Transfer
deriving DecidableEq, Repr

/-- Modelled from the spec: producer-side ready is asserted exactly while
the bounded queue has room (spec section 4.2 failure semantics). -/
def cdcReady (cap : Nat) (s : CDCState) : Bool :=
  s.buffer.length < cap

/-- Modelled from the spec: consumer-side valid is asserted exactly while
the queue is nonempty (spec section 4.2 failure semantics). -/
def cdcValid (s : CDCState) : Bool :=
  !s.buffer.isEmpty

/-- Modelled from the spec: one producer-domain step.  If a transfer is
offered and ready holds, it enters the back of the queue; if the queue is
full, ready is deasserted and the offered transfer stays pending — it is
never dropped. -/
def producerStep (cap : Nat) (s : CDCState) : CDCState :=
  match s.pending with
  | [] => s
  | x :: rest =>
      if cdcReady cap s then
        { s with pending := rest, buffer := s.buffer ++ [x] }
      else s

/-- Modelled from the spec: one consumer-domain step.  If the queue is
nonempty its oldest transfer is delivered; if it is empty, valid is
deasserted and nothing is delivered. -/
def consumerStep (s : CDCState) : CDCState :=
  match s.buffer with
  | [] => s
  | y :: b => { s with buffer := b, consumed := s.consumed ++ [y] }

/-- A schedule interleaves producer-domain steps (true) and consumer-domain
steps (false) arbitrarily, embedding arbitrary relative clock rates and
phases of the two domains. -/
def cdcRun (cap : Nat) (sched : List Bool) (s : CDCState) : CDCState :=
  sched.foldl (fun t c => if c then producerStep cap t else consumerStep t) s

/-- Everything a CDC state accounts for, in order: delivered, in flight,
still pending. -/
def cdcTotal (s : CDCState) : List Transfer :=
  s.consumed ++ s.buffer ++ s.pending

/-! ## PHY reset controller model -/

/-- The three phases of the PHY Reset Controller (spec section 4.3). -/
inductive RPhase
| Resetting
| HoldOff
| Active
deriving DecidableEq, Repr

/-- Modelled from the spec: the PHY Reset Controller is
luna.gateware.architecture.car.PHYResetController instantiated at
build_verilog.py line 56 with reset_length=40e-3 and stop_length=40e-4,
and its implementation is not part of this repository.  Spec sections 3
and 4.3 and design note 3 describe it as an enumerated phase plus a
counter advanced once per clock step. -/
structure RState where
  phase : RPhase
  counter : Nat
deriving DecidableEq, Repr

/-- Modelled from the spec: the state entered on domain reset. -/
def rcInit : RState := ⟨.Resetting, 0⟩

/-- Modelled from the spec: one clock step of the controller in its domain.
rd and hd are the configured minimum cycle counts of the Resetting and
HoldOff phases; a domain reset re-enters Resetting; otherwise each phase
counts up to its configured duration before handing over, and Active
persists until the next domain reset. -/
def rcStep (rd hd : Nat) (reset : Bool) (s : RState) : RState :=
  if reset then rcInit
  else
    match s.phase with
    | .Resetting =>
        if rd ≤ s.counter + 1 then ⟨.HoldOff, 0⟩
        else ⟨.Resetting, s.counter + 1⟩
    | .HoldOff =>
        if hd ≤ s.counter + 1 then ⟨.Active, 0⟩
        else ⟨.HoldOff, s.counter + 1⟩
    | .Active => s

/-- Run the controller over a trace of domain-reset inputs. -/
def rcRun (rd hd : Nat) (inputs : List Bool) (s : RState) : RState :=
  inputs.foldl (fun t r => rcStep rd hd r t) s

/-- The number of trailing steps of a trace during which no domain reset
was asserted. -/
def quietSuffixLen (l : List Bool) : Nat :=
  (l.reverse.takeWhile (fun b => !b)).length

/-- How far through the Resetting-then-HoldOff schedule a state has
progressed, measured in guaranteed elapsed cycles since the last reset. -/
def rcProgress (rd hd : Nat) (s : RState) : Nat :=
  match s.phase with
  | .Resetting => s.counter
  | .HoldOff => rd + s.counter
  | .Active => rd + hd

/-! ## ULPI reset polarity netlist (packaged USBSerialDevice.py
lines 111-113, 128) -/

/-- The two nets of the ULPI reset circuit: the usb_pads.rst pad and the
local active-high reset signal of line 112. -/
inductive Net
| padsRst
| resetSig
deriving DecidableEq, Repr

/-- Boolean net expressions appearing on the right of comb statements. -/
inductive BExpr
| var (n : Net)
| inv (e : BExpr)
deriving DecidableEq, Repr

/-- Evaluate a net expression in an environment. -/
def evalB (env : Net → Bool) : BExpr → Bool
| .var n => env n
| .inv e => !(evalB env e)

/-- The comb statement of line 113: usb_pads.rst.eq(~reset). -/
def ulpiResetComb : List (Net × BExpr) :=
  [(.padsRst, .inv (.var .resetSig))]

/-- An environment satisfies a comb block when every left-hand net carries
the value of its right-hand expression. -/
def combHolds (env : Net → Bool) (comb : List (Net × BExpr)) : Prop :=
  ∀ p ∈ comb, env p.1 = evalB env p.2

/-! ## Concrete inputs used by witnesses and counterexamples -/

/-- A pin set carrying none of the attributes either variant wires. -/
def neitherPads : PinSet :=
  ⟨false, false, false, false, false, false, false, false, false⟩

/-- A pin set carrying exactly the Direct attributes. -/
def directPads : PinSet :=
  ⟨true, true, true, false, false, false, false, false, false⟩

/-- A pin set carrying exactly the ULPI attributes. -/
def ulpiPads : PinSet :=
  ⟨false, false, false, true, true, true, true, true, true⟩

/-- The default identity of the packaged constructor, lines 20-23. -/
def demoIdentity : Identity :=
  ⟨0x1209, 0x5af1, "MSE Lab", "ULPI Device"⟩

/-- The three-byte frame of spec section 8's end-to-end scenario. -/
def demoTransfers : List Transfer :=
  [⟨0x41, true, false⟩, ⟨0x42, false, false⟩, ⟨0x43, false, true⟩]

/-- A CDC state whose queue holds two transfers. -/
def demoFullState : CDCState :=
  ⟨[], [⟨1, false, false⟩, ⟨2, false, false⟩], []⟩

/-- A CDC state whose queue is empty. -/
def demoEmptyState : CDCState :=
  ⟨[], [], []⟩

/-! ## CDC bridge lemmas -/

theorem producerStep_total (cap : Nat) (s : CDCState) :
    cdcTotal (producerStep cap s) = cdcTotal s := by
  obtain ⟨p, b, c⟩ := s
  cases p with
  | nil => rfl
  | cons x rest =>
      simp only [producerStep, cdcTotal]
      split
      · simp
      · rfl

theorem consumerStep_total (s : CDCState) :
    cdcTotal (consumerStep s) = cdcTotal s := by
  obtain ⟨p, b, c⟩ := s
  cases b with
  | nil => rfl
  | cons y bs =>
      simp [consumerStep, cdcTotal]

theorem cdcRun_total (cap : Nat) (sched : List Bool) (s : CDCState) :
    cdcTotal (cdcRun cap sched s) = cdcTotal s := by
  induction sched generalizing s with
  | nil => rfl
  | cons c cs ih =>
      cases c
      · exact (ih (consumerStep s)).trans (consumerStep_total s)
      · exact (ih (producerStep cap s)).trans (producerStep_total cap s)

theorem cdc_full_no_drop (cap : Nat) (t : CDCState)
    (h : cap ≤ t.buffer.length) :
    cdcReady cap t = false ∧ producerStep cap t = t := by
  have hr : cdcReady cap t = false := by
    simp [cdcReady]
    omega
  refine ⟨hr, ?_⟩
  obtain ⟨p, b, c⟩ := t
  cases p with
  | nil => rfl
  | cons x rest => simp [producerStep, hr]

theorem cdc_empty_no_deliver (t : CDCState) (h : t.buffer = []) :
    cdcValid t = false ∧ consumerStep t = t := by
  obtain ⟨p, b, c⟩ := t
  simp only at h
  subst h
  exact ⟨rfl, rfl⟩

/-- Claim C1: for every sequence of transfers offered to the CDC bridge's
producer side and every interleaving of producer- and consumer-domain
steps, the consumer observes a prefix of the offered sequence with nothing
lost, duplicated or reordered (delivered ++ in-flight ++ pending is exactly
the input); a full queue deasserts producer-side ready and drops nothing;
an empty queue deasserts consumer-side valid and delivers nothing. -/
theorem C1_cdc_bridge_fifo (cap : Nat) (sched : List Bool)
    (input : List Transfer) :
    cdcTotal (cdcRun cap sched ⟨input, [], []⟩) = input
    ∧ (∃ rest, (cdcRun cap sched ⟨input, [], []⟩).consumed ++ rest = input)
    ∧ (∀ t : CDCState, cap ≤ t.buffer.length →
        cdcReady cap t = false ∧ producerStep cap t = t)
    ∧ (∀ t : CDCState, t.buffer = [] →
        cdcValid t = false ∧ consumerStep t = t) := by
  have htot : cdcTotal (cdcRun cap sched ⟨input, [], []⟩) = input := by
    rw [cdcRun_total]
    simp [cdcTotal]
  refine ⟨htot, ?_, cdc_full_no_drop cap, cdc_empty_no_deliver⟩
  refine ⟨(cdcRun cap sched ⟨input, [], []⟩).buffer ++
    (cdcRun cap sched ⟨input, [], []⟩).pending, ?_⟩
  simpa [cdcTotal, List.append_assoc] using htot

/-- Witness for C1 at the spec's end-to-end frame: capacity 2, a concrete
interleaving that fills, stalls and drains the queue, a concrete full state
and a concrete empty state. -/
theorem C1_cdc_bridge_fifo_witness :
    cdcTotal (cdcRun 2 [true, true, true, false, true, false, false]
      ⟨demoTransfers, [], []⟩) = demoTransfers
    ∧ cdcReady 2 demoFullState = false
    ∧ producerStep 2 demoFullState = demoFullState
    ∧ cdcValid demoEmptyState = false
    ∧ consumerStep demoEmptyState = demoEmptyState := by
  have h := C1_cdc_bridge_fifo 2 [true, true, true, false, true, false, false]
    demoTransfers
  have hfull := h.2.2.1 demoFullState (by decide)
  have hempty := h.2.2.2 demoEmptyState (by decide)
  exact ⟨h.1, hfull.1, hfull.2, hempty.1, hempty.2⟩

/-! ## PHY reset controller lemmas -/

theorem rcRun_append (rd hd : Nat) (l : List Bool) (r : Bool) (s : RState) :
    rcRun rd hd (l ++ [r]) s = rcStep rd hd r (rcRun rd hd l s) := by
  simp [rcRun, List.foldl_append]

theorem rcStep_progress (rd hd : Nat) (s : RState) :
    rcProgress rd hd (rcStep rd hd false s) ≤ rcProgress rd hd s + 1 := by
  obtain ⟨ph, n⟩ := s
  cases ph
  · by_cases h : rd ≤ n + 1 <;> simp [rcStep, rcProgress, h]
  · by_cases h : hd ≤ n + 1 <;> simp [rcStep, rcProgress, h] <;> omega
  · simp [rcStep, rcProgress]

theorem quietSuffixLen_append_true (l : List Bool) :
    quietSuffixLen (l ++ [true]) = 0 := by
  simp [quietSuffixLen]

theorem quietSuffixLen_append_false (l : List Bool) :
    quietSuffixLen (l ++ [false]) = quietSuffixLen l + 1 := by
  simp [quietSuffixLen]

theorem rcRun_progress_le (rd hd : Nat) (l : List Bool) :
    rcProgress rd hd (rcRun rd hd l rcInit) ≤ quietSuffixLen l := by
  induction l using List.reverseRecOn with
  | nil => simp [rcRun, rcProgress, rcInit, quietSuffixLen]
  | append_singleton l r ih =>
      rw [rcRun_append]
      cases r
      · rw [quietSuffixLen_append_false]
        exact le_trans (rcStep_progress rd hd _) (Nat.add_le_add_right ih 1)
      · rw [quietSuffixLen_append_true]
        simp [rcStep, rcInit, rcProgress]

/-- Claim C6: the reset controller reaches Active only after at least the
configured Resetting duration plus the configured HoldOff duration have
elapsed without a domain reset, for every trace of reset re-triggers; and
the phase order is strict: Active is entered only from HoldOff, HoldOff
only from Resetting (or by staying put). -/
theorem C6_reset_controller_phases (rd hd : Nat) (l : List Bool) :
    ((rcRun rd hd l rcInit).phase = .Active → rd + hd ≤ quietSuffixLen l)
    ∧ (∀ r : Bool, ∀ s : RState, (rcStep rd hd r s).phase = .Active →
        s.phase = .HoldOff ∨ s.phase = .Active)
    ∧ (∀ r : Bool, ∀ s : RState, (rcStep rd hd r s).phase = .HoldOff →
        s.phase = .Resetting ∨ s.phase = .HoldOff) := by
  refine ⟨?_, ?_, ?_⟩
  · intro h
    have hp := rcRun_progress_le rd hd l
    have he : rcProgress rd hd (rcRun rd hd l rcInit) = rd + hd := by
      unfold rcProgress
      rw [h]
    omega
  · intro r s h
    obtain ⟨ph, n⟩ := s
    cases r
    · cases ph
      · exfalso
        by_cases hc : rd ≤ n + 1 <;> simp [rcStep, hc] at h
      · left; rfl
      · right; rfl
    · simp [rcStep, rcInit] at h
  · intro r s h
    obtain ⟨ph, n⟩ := s
    cases r
    · cases ph
      · left; rfl
      · right; rfl
      · simp [rcStep] at h
    · simp [rcStep, rcInit] at h

/-- Witness for C6 with Resetting duration 2 and HoldOff duration 3: a
five-step quiet trace reaches Active, a HoldOff state about to expire
steps to Active, a Resetting state about to expire steps to HoldOff. -/
theorem C6_reset_controller_phases_witness :
    (2 + 3 ≤ quietSuffixLen [false, false, false, false, false])
    ∧ ((RState.mk .HoldOff 2).phase = .HoldOff
        ∨ (RState.mk .HoldOff 2).phase = .Active)
    ∧ ((RState.mk .Resetting 1).phase = .Resetting
        ∨ (RState.mk .Resetting 1).phase = .HoldOff) := by
  have h := C6_reset_controller_phases 2 3 [false, false, false, false, false]
  exact ⟨h.1 (by decide), h.2.1 false ⟨.HoldOff, 2⟩ (by decide),
    h.2.2 false ⟨.Resetting, 1⟩ (by decide)⟩

/-! ## Pin-set heuristic and construction failure -/

/-- Claim C2 counterexample: the all-absent pin set matches neither
variant's required signals, yet construction raises no configuration
error — the heuristic silently selects Direct and the constructor fails
only with the unrelated TypeError of the build call. -/
theorem C2_counterexample :
    matchesDirect neitherPads = false
    ∧ matchesULPI neitherPads = false
    ∧ (packagedInit neitherPads demoIdentity).1 ≠
        Except.error PyError.configError
    ∧ variantOf neitherPads = Variant.Direct := by
  have hb : buildCallBadKwarg = true := by decide
  refine ⟨rfl, rfl, ?_, rfl⟩
  simp [packagedInit, hb]

/-- Claim C2 as amended: construction performs no pin-set validation and
never produces a configuration error; the variant is the unguarded
heuristic (ULPI exactly when a clk attribute is present, Direct otherwise);
what every construction does raise is the build call's TypeError,
independent of the pin set. -/
theorem C2_no_pinset_validation (pads : PinSet) (i : Identity) :
    (packagedInit pads i).1 ≠ Except.error PyError.configError
    ∧ variantOf pads = (if pads.clk then Variant.ULPI else Variant.Direct)
    ∧ (packagedInit pads i).1 = Except.error PyError.typeError := by
  have hb : buildCallBadKwarg = true := by decide
  refine ⟨?_, rfl, ?_⟩ <;> simp [packagedInit, hb]

/-- Witness for C2 at the all-absent pin set. -/
theorem C2_no_pinset_validation_witness :
    (packagedInit neitherPads demoIdentity).1 =
      Except.error PyError.typeError :=
  (C2_no_pinset_validation neitherPads demoIdentity).2.2

/-! ## Device Configuration Resolver -/

/-- Claim C3: the resolver is a pure function of variant and identity; the
resolved packet size is 64 exactly for Direct and 512 exactly for ULPI and
can take no other value; the identity fields pass through the resolver and
the build body to the black-box engine unchanged. -/
theorem C3_resolver_pure (v : Variant) (i : Identity) :
    ((resolveConfig v i).1 = 64 ∨ (resolveConfig v i).1 = 512)
    ∧ ((resolveConfig v i).1 = 64 ↔ v = .Direct)
    ∧ ((resolveConfig v i).1 = 512 ↔ v = .ULPI)
    ∧ (resolveConfig v i).2 = i
    ∧ (∀ u : Bool,
        (buildBody ⟨u, i⟩).1.idVendor = i.idVendor
        ∧ (buildBody ⟨u, i⟩).1.idProduct = i.idProduct
        ∧ (buildBody ⟨u, i⟩).1.manufacturerString = i.manufacturerString
        ∧ (buildBody ⟨u, i⟩).1.productString = i.productString) := by
  refine ⟨?_, ?_, ?_, rfl, fun u => ⟨rfl, rfl, rfl, rfl⟩⟩ <;>
    cases v <;> simp [resolveConfig, max_packet_size]

/-- Witness for C3 at the ULPI variant and the default identity. -/
theorem C3_resolver_pure_witness :
    (resolveConfig Variant.ULPI demoIdentity).1 = 512 :=
  (C3_resolver_pure Variant.ULPI demoIdentity).2.2.1.mpr rfl

/-! ## ULPI reset polarity -/

/-- An environment realizing the ULPI reset circuit with the internal
reset asserted. -/
def demoEnv : Net → Bool
| .padsRst => false
| .resetSig => true

/-- Claim C4: in every evaluation of the ULPI branch's comb logic, the
usb_pads.rst pin carries the logical inverse of the internal active-high
reset signal, and that internal signal is precisely what the generated
module's o_ulpi_pads__rst__o output drives. -/
theorem C4_ulpi_reset_inverted (env : Net → Bool)
    (h : combHolds env ulpiResetComb) :
    env .padsRst = !(env .resetSig)
    ∧ lookupParam "o_ulpi_pads__rst__o" packagedUlpiParams =
        some (SigRef.localSig "reset") := by
  constructor
  · have hc := h (.padsRst, .inv (.var .resetSig)) (by simp [ulpiResetComb])
    simpa [evalB] using hc
  · decide

/-- Witness for C4 at a concrete satisfying environment. -/
theorem C4_ulpi_reset_inverted_witness :
    demoEnv .padsRst = !(demoEnv .resetSig) :=
  (C4_ulpi_reset_inverted demoEnv
    (by intro p hp; simp [ulpiResetComb] at hp; subst hp; rfl)).1

/-! ## Variant selection fixed at construction -/

/-- Claim C5: the PHY variant is determined once, purely from the supplied
pin set (clk attribute present means ULPI, absent means Direct), and that
single choice fixes both the generated module that is instantiated and the
pin contract that is wired, with no other influence. -/
theorem C5_variant_selection (pads : PinSet) (i : Identity) :
    (packagedWiring pads i).variant = variantOf pads
    ∧ ((packagedWiring pads i).variant = .ULPI ↔ use_ulpi_phy pads = true)
    ∧ (packagedWiring pads i).instName =
        (if (packagedWiring pads i).variant = .ULPI
         then "LunaUSBSerialDevice_ULPI" else "LunaUSBSerialDevice_RAW")
    ∧ (packagedWiring pads i).params = packagedBaseParams ++
        (if (packagedWiring pads i).variant = .ULPI
         then packagedUlpiParams else packagedDirectParams) := by
  by_cases h : pads.clk <;>
    simp [packagedWiring, variantOf, use_ulpi_phy, buildBody, h]

/-- Witness for C5 at the ULPI pin set. -/
theorem C5_variant_selection_witness :
    (packagedWiring ulpiPads demoIdentity).variant = Variant.ULPI :=
  (C5_variant_selection ulpiPads demoIdentity).2.1.mpr rfl

/-! ## Top-level composition -/

/-- Claim C7: the top-level module exposes exactly two stream endpoints
(the transmit sink usb_tx and the receive source usb_rx) and the single
supplied pad object, and composes exactly two CDC bridges: the transmit
bridge from the application domain to the core domain and the receive
bridge from the core domain to the application domain. -/
theorem C7_composition (pads : PinSet) (i : Identity) :
    (packagedWiring pads i).endpoints = [Ep.usb_tx, Ep.usb_rx]
    ∧ (packagedWiring pads i).endpoints.length = 2
    ∧ (packagedWiring pads i).sink = Ep.usb_tx
    ∧ (packagedWiring pads i).source = Ep.usb_rx
    ∧ (packagedWiring pads i).cdcs =
        [(Domain.app, Domain.core), (Domain.core, Domain.app)]
    ∧ (packagedWiring pads i).cdcs.length = 2
    ∧ (packagedWiring pads i).bus = pads :=
  ⟨rfl, rfl, rfl, rfl, rfl, rfl, rfl⟩

/-! ## Constructor always raises TypeError -/

/-- Claim C8: for every pin set and identity the packaged constructor
raises TypeError at the build call — whose keyword max_packet_size names no
parameter of build — before any verilog is generated, any source attached
or any instance created; hence the resolved packet size never reaches the
engine. -/
theorem C8_build_call_type_error (pads : PinSet) (i : Identity) :
    (packagedInit pads i).1 = Except.error PyError.typeError
    ∧ (packagedInit pads i).2 = []
    ∧ "max_packet_size" ∈ buildCallKwargNames
    ∧ "max_packet_size" ∉ buildParamNames := by
  have hb : buildCallBadKwarg = true := by decide
  exact ⟨by simp [packagedInit, hb], by simp [packagedInit, hb],
    by decide, by decide⟩

/-- Witness for C8 at the ULPI pin set and the default identity. -/
theorem C8_build_call_type_error_witness :
    (packagedInit ulpiPads demoIdentity).1 = Except.error PyError.typeError
    ∧ (packagedInit ulpiPads demoIdentity).2 = [] :=
  ⟨(C8_build_call_type_error ulpiPads demoIdentity).1,
   (C8_build_call_type_error ulpiPads demoIdentity).2.1⟩

/-! ## Legacy versus packaged stream wiring -/

/-- Claim C9 counterexample: the legacy wrapper's connect calls do not
produce the same driver-to-load assignments as the packaged wrapper's. -/
theorem C9_counterexample : legacyStreamComb ≠ packagedStreamComb := by
  decide

/-- Claim C9 as amended: the legacy connect calls produce, signal for
signal, exactly the packaged wrapper's assignments with driver and load
exchanged — the data-flow direction of every stream signal is reversed,
not preserved. -/
theorem C9_swapped_wiring :
    legacyStreamComb = packagedStreamComb.map swapAssign
    ∧ connectEp .tx_cdc_sink .usb_tx =
        (connectEp .usb_tx .tx_cdc_sink).map swapAssign
    ∧ connectEp .usb_rx .rx_cdc_source =
        (connectEp .rx_cdc_source .usb_rx).map swapAssign := by
  decide

/-! ## Clock domain parameters -/

theorem packagedUlpiParamsNoApp :
    ∀ e ∈ packagedBaseParams ++ packagedUlpiParams,
      e.2 ≠ SigRef.clockOf .app ∧ e.2 ≠ SigRef.resetOf .app := by
  decide

theorem packagedDirectParamsNoApp :
    ∀ e ∈ packagedBaseParams ++ packagedDirectParams,
      e.2 ≠ SigRef.clockOf .app ∧ e.2 ≠ SigRef.resetOf .app := by
  decide

theorem legacyParamsNoApp :
    ∀ e ∈ legacyParams,
      e.2 ≠ SigRef.clockOf .app ∧ e.2 ≠ SigRef.resetOf .app := by
  decide

/-- Claim C10: in both wrappers the generated module's i_clk_sync
parameter is bound to the same clock as i_clk_usb — the core domain's
clock — never to the application clock; no instance parameter references
the application domain's clock or reset at all, and the application domain
appears only as the producer side of the transmit CDC and the consumer
side of the receive CDC. -/
theorem C10_clk_sync_core (pads : PinSet) (i : Identity) :
    lookupParam "i_clk_sync" (packagedWiring pads i).params =
      some (SigRef.clockOf .core)
    ∧ lookupParam "i_clk_usb" (packagedWiring pads i).params =
        some (SigRef.clockOf .core)
    ∧ lookupParam "i_clk_sync" (legacyWiring pads).params =
        some (SigRef.clockOf .core)
    ∧ lookupParam "i_clk_usb" (legacyWiring pads).params =
        some (SigRef.clockOf .core)
    ∧ (∀ e ∈ (packagedWiring pads i).params,
        e.2 ≠ SigRef.clockOf .app ∧ e.2 ≠ SigRef.resetOf .app)
    ∧ (∀ e ∈ (legacyWiring pads).params,
        e.2 ≠ SigRef.clockOf .app ∧ e.2 ≠ SigRef.resetOf .app)
    ∧ (packagedWiring pads i).cdcs =
        [(Domain.app, Domain.core), (Domain.core, Domain.app)]
    ∧ (legacyWiring pads).cdcs =
        [(Domain.app, Domain.core), (Domain.core, Domain.app)] := by
  by_cases h : pads.clk <;>
    refine ⟨?_, ?_, ?_, ?_, ?_, legacyParamsNoApp, rfl, rfl⟩ <;>
    simp only [packagedWiring, legacyWiring, use_ulpi_phy, h, if_true,
      if_false, Bool.false_eq_true] <;>
    first
    | exact packagedUlpiParamsNoApp
    | exact packagedDirectParamsNoApp
    | decide

/-- Witness for C10 at the Direct pin set. -/
theorem C10_clk_sync_core_witness :
    lookupParam "i_clk_sync" (packagedWiring directPads demoIdentity).params
      = some (SigRef.clockOf Domain.core) :=
  (C10_clk_sync_core directPads demoIdentity).1

end LunaUsbSerialAcm
